import Mathlib

/-!
Shallow embedding of the `cosmwasm-token-distributor` contract
(`src/contract.rs`, `src/state.rs`, `src/msg.rs`).

Modelling conventions:
* `Uint128` values are `Nat`s; every arithmetic operation of the source that
  is checked (the `+`/`-` operators of `cosmwasm_std::Uint128` panic on
  overflow/underflow, and the raw `u128` multiply in `deposit` is checked per
  the build profile's overflow checks, which the spec confirms: "checked, not
  wrapping") is modelled by an explicit bound test against `2 ^ 128`; a failed
  check aborts the call (`ContractError.overflowPanic`), which the host turns
  into a failed transaction like any other error.
* The persistent store (`CONTRACT_INFO`, `WITHDRAWABLE`, `FEE_COLLECTED`) is a
  record `DepsState`; the cw-storage-plus `Map` is an association list with
  `mapLoad`/`mapSave`.
* `deps.api.addr_validate` is an abstract pure validator
  `Api := String → Option String` (the host's bech32 validation is an external
  collaborator); `none` models a validation error.
* Binary (de)serialization is out of scope per the spec, so the embedded
  payload of a `Cw20ReceiveMsg` arrives already decoded as
  `Option Cw20HookMsg`; `none` models a payload that fails to decode.
* Each operation is first given raw, single-threaded state-passing semantics
  (`…Raw`), returning the error and the state as mutated so far; the host's
  atomic-transaction semantics (all writes dropped when the entry point
  returns an error) is the wrapper `hostExecute` / `hostPost`.
-/

/-- `Uint128` overflow bound. -/
def U128_LIMIT : Nat := 2 ^ 128

/-- Checked `u128` arithmetic: `some n` when `n` fits in 128 bits, otherwise
`none` (the source panics, aborting the call). -/
def checkedU128 (n : Nat) : Option Nat :=
  if n < U128_LIMIT then some n else none

/-- `cw_storage_plus::Map::load`, on the association-list model of the map. -/
def mapLoad : List (String × Nat) → String → Option Nat
  | [], _ => none
  | (k, v) :: rest, key => if k = key then some v else mapLoad rest key

/-- `cw_storage_plus::Map::save`: overwrite the key if present, else insert. -/
def mapSave : List (String × Nat) → String → Nat → List (String × Nat)
  | [], key, v => [(key, v)]
  | (k, w) :: rest, key, v =>
      if k = key then (key, v) :: rest else (k, w) :: mapSave rest key v

/-- `state.rs`: `ContractInfo { token, owner }` (addresses, already
validated at instantiation). -/
structure ContractInfo where
  token : String
  owner : String
deriving DecidableEq, Repr

/-- The three persistent records of `state.rs`: `CONTRACT_INFO` (`none`
before instantiation), `WITHDRAWABLE`, `FEE_COLLECTED`. -/
structure DepsState where
  contractInfo : Option ContractInfo
  withdrawable : List (String × Nat)
  feeCollected : Option Nat
deriving DecidableEq, Repr

/-- `cosmwasm_std::StdError`, restricted to the variants this contract
produces: `GenericErr` (explicit rejections and `addr_validate` failures) and
`NotFound` (an `Item::load` on a missing item). -/
inductive StdError where
  | genericErr (msg : String)
  | notFound (what : String)
deriving DecidableEq, Repr

/-- `error.rs` is not under `src/`; its shape is forced by the uses in
`contract.rs` (`ContractError::Std(..)`, `ContractError::Unauthorized {}`).
`overflowPanic` additionally models a checked-arithmetic panic, which aborts
the call like an error. -/
inductive ContractError where
  | std (e : StdError)
  | unauthorized
  | overflowPanic
deriving DecidableEq, Repr

/-- `msg.rs`: `DepositMsg { addr1, addr2 }`. -/
structure DepositMsg where
  addr1 : String
  addr2 : String
deriving DecidableEq, Repr

/-- `msg.rs`: `Cw20HookMsg::Deposit(DepositMsg)`. -/
inductive Cw20HookMsg where
  | Deposit (msg : DepositMsg)
deriving DecidableEq, Repr

/-- `msg.rs` / `contract.rs` dispatch: the four execute variants. The
`Receive` payload carries the cw20 sender (informational, unused), the
transferred amount, and the embedded hook payload, already decoded
(`none` = decode failure). -/
inductive ExecuteMsg where
  | Withdraw (amount : Nat)
  | WithdrawAll
  | WithdrawFee
  | Receive (cw20Sender : String) (amount : Nat) (hook : Option Cw20HookMsg)
deriving DecidableEq, Repr

/-- The one outbound message shape this contract emits:
`WasmMsg::Execute { contract_addr, Cw20ExecuteMsg::Transfer { recipient,
amount } }`. -/
structure TransferInstr where
  contract_addr : String
  recipient : String
  amount : Nat
deriving DecidableEq, Repr

/-- A `Response` reduced to its list of outbound messages (all of them are
cw20 transfer instructions here; attributes carry no semantics). -/
def Response : Type := List TransferInstr

instance : DecidableEq Response := by
  unfold Response
  infer_instance

/-- The host's address validator, `deps.api.addr_validate`: an abstract pure
function; `none` models a validation error. -/
def Api : Type := String → Option String

/-- `contract.rs` lines 14-28: `instantiate`. Validates both addresses,
stores `ContractInfo`, sets `FEE_COLLECTED` to zero. -/
def instantiate (api : Api) (s : DepsState) (token owner : String) :
    Except ContractError (DepsState × Response) :=
  match api token with
  | none => Except.error (ContractError.std (StdError.genericErr "Invalid address"))
  | some t =>
    match api owner with
    | none => Except.error (ContractError.std (StdError.genericErr "Invalid address"))
    | some o =>
      Except.ok ({ s with contractInfo := some ⟨t, o⟩, feeCollected := some 0 }, [])

/-- `contract.rs` lines 92-130: `_withdraw` (the shared settlement logic of
`withdraw` and `withdraw_all`). Returns the result together with the state as
written so far (the debit at line 116 happens before the `addr_validate` at
line 119). -/
def withdrawRaw (api : Api) (s : DepsState) (sender : String) (amount : Nat) :
    Except ContractError Response × DepsState :=
  match s.contractInfo with
  | none => (Except.error (ContractError.std (StdError.notFound "ContractInfo")), s)
  | some ci =>
    if amount = 0 then
      (Except.error (ContractError.std (StdError.genericErr "Invalid zero amount")), s)
    else
      let withdrawable := (mapLoad s.withdrawable sender).getD 0
      if withdrawable < amount then
        (Except.error (ContractError.std (StdError.genericErr "Insufficient amount")), s)
      else
        let s1 := { s with withdrawable := mapSave s.withdrawable sender (withdrawable - amount) }
        match api sender with
        | none => (Except.error (ContractError.std (StdError.genericErr "Invalid address")), s1)
        | some recipient =>
          (Except.ok [⟨ci.token, recipient, amount⟩], s1)

/-- `contract.rs` lines 53-63: `withdraw_all` loads the caller's balance
(zero when absent) and delegates to `_withdraw`. -/
def withdrawAllRaw (api : Api) (s : DepsState) (sender : String) :
    Except ContractError Response × DepsState :=
  let amount := (mapLoad s.withdrawable sender).getD 0
  withdrawRaw api s sender amount

/-- `contract.rs` lines 65-90: `withdraw_fee`. Owner-only; resets
`FEE_COLLECTED` to zero and emits one transfer of the whole prior pool. -/
def withdrawFeeRaw (s : DepsState) (sender : String) :
    Except ContractError Response × DepsState :=
  match s.contractInfo with
  | none => (Except.error (ContractError.std (StdError.notFound "ContractInfo")), s)
  | some ci =>
    if ci.owner ≠ sender then
      (Except.error ContractError.unauthorized, s)
    else
      match s.feeCollected with
      | none => (Except.error (ContractError.std (StdError.notFound "FeeCollected")), s)
      | some fee =>
        let s1 := { s with feeCollected := some 0 }
        (Except.ok [⟨ci.token, sender, fee⟩], s1)

/-- `contract.rs` lines 132-181: `deposit`. Mirrors the source order exactly:
load config (140), decode payload (143, `Err` ⇒ `Unauthorized`, 179), token
check (150), fee computation (156), fee-pool write (157-158), share split
(159-163), the two balance loads (165-172), then the two balance writes
(174-175). The source re-validates `addr1`/`addr2` at lines 174-175 with the
same pure validator, which returns the same addresses, so the validated
values are reused here. -/
def deposit (api : Api) (s : DepsState) (sender : String) (amount : Nat)
    (hook : Option Cw20HookMsg) : Except ContractError Response × DepsState :=
  match s.contractInfo with
  | none => (Except.error (ContractError.std (StdError.notFound "ContractInfo")), s)
  | some ci =>
    match hook with
    | none => (Except.error ContractError.unauthorized, s)
    | some (Cw20HookMsg.Deposit m) =>
      if sender ≠ ci.token then
        (Except.error (ContractError.std (StdError.genericErr "Invalid token")), s)
      else
        match checkedU128 (amount * 50) with
        | none => (Except.error ContractError.overflowPanic, s)
        | some m50 =>
          let fee := m50 / 1000
          match s.feeCollected with
          | none => (Except.error (ContractError.std (StdError.notFound "FeeCollected")), s)
          | some pool =>
            match checkedU128 (pool + fee) with
            | none => (Except.error ContractError.overflowPanic, s)
            | some totalFee =>
              let s1 := { s with feeCollected := some totalFee }
              if amount < fee then
                (Except.error ContractError.overflowPanic, s1)
              else
                let sendAmount := amount - fee
                let amount1 := sendAmount / 2
                let amount2 := sendAmount - amount1
                match api m.addr1 with
                | none => (Except.error (ContractError.std (StdError.genericErr "Invalid address")), s1)
                | some va1 =>
                  let withdrawable1 := (mapLoad s1.withdrawable va1).getD 0
                  match api m.addr2 with
                  | none => (Except.error (ContractError.std (StdError.genericErr "Invalid address")), s1)
                  | some va2 =>
                    let withdrawable2 := (mapLoad s1.withdrawable va2).getD 0
                    match checkedU128 (withdrawable1 + amount1) with
                    | none => (Except.error ContractError.overflowPanic, s1)
                    | some n1 =>
                      let s2 := { s1 with withdrawable := mapSave s1.withdrawable va1 n1 }
                      match checkedU128 (withdrawable2 + amount2) with
                      | none => (Except.error ContractError.overflowPanic, s2)
                      | some n2 =>
                        let s3 := { s2 with withdrawable := mapSave s2.withdrawable va2 n2 }
                        (Except.ok [], s3)

/-- `contract.rs` lines 30-43: the `execute` entry-point dispatch (the
`withdraw` wrapper at lines 45-51 only unpacks `msg.amount`, so `Withdraw`
goes to `_withdraw` directly). Raw semantics: the returned state includes
writes made before a failure. -/
def executeRaw (api : Api) (s : DepsState) (sender : String) :
    ExecuteMsg → Except ContractError Response × DepsState
  | ExecuteMsg.Withdraw amount => withdrawRaw api s sender amount
  | ExecuteMsg.WithdrawAll => withdrawAllRaw api s sender
  | ExecuteMsg.WithdrawFee => withdrawFeeRaw s sender
  | ExecuteMsg.Receive _ amount hook => deposit api s sender amount hook

/-- The host's atomic-transaction semantics around `execute`: on success the
written state is committed; on failure every write is rolled back and only
the error is observable. -/
def hostExecute (api : Api) (s : DepsState) (sender : String) (msg : ExecuteMsg) :
    Except ContractError (DepsState × Response) :=
  match executeRaw api s sender msg with
  | (Except.ok r, s1) => Except.ok (s1, r)
  | (Except.error e, _) => Except.error e

/-- The persistent state observable after an `execute` transaction: the new
state on success, the untouched prior state on failure. -/
def hostPost (api : Api) (s : DepsState) (sender : String) (msg : ExecuteMsg) : DepsState :=
  match hostExecute api s sender msg with
  | Except.ok (s1, _) => s1
  | Except.error _ => s

/-- One `execute` transaction on the chain: a caller and a message. -/
structure Event where
  sender : String
  msg : ExecuteMsg
deriving DecidableEq, Repr

/-- The persistent state after one transaction (failed transactions leave the
state untouched). -/
def stepKeep (api : Api) (s : DepsState) (ev : Event) : DepsState :=
  hostPost api s ev.sender ev.msg

/-- The persistent state after a sequence of transactions. -/
def runEvents (api : Api) : DepsState → List Event → DepsState
  | s, [] => s
  | s, ev :: rest => runEvents api (stepKeep api s ev) rest

/-- Spec-side fee accounting for one transaction: an accepted deposit of
amount `A` adds `floor(A * 50 / 1000)` to the ledger, an accepted fee
withdrawal resets it to zero, everything else (including every failed
transaction) leaves it unchanged. Acceptance is judged by the code's own
semantics; the amount added is the spec's formula. -/
def feeDelta (api : Api) (s : DepsState) (ev : Event) (p : Nat) : Nat :=
  match ev.msg, hostExecute api s ev.sender ev.msg with
  | ExecuteMsg.Receive _ a _, Except.ok _ => p + a * 50 / 1000
  | ExecuteMsg.WithdrawFee, Except.ok _ => 0
  | _, _ => p

/-- Spec-side fee ledger over a sequence of transactions: the sum of
`floor(A * 50 / 1000)` over the deposits accepted since the most recent
accepted fee withdrawal (or since the start when there is none). -/
def feeLedger (api : Api) : DepsState → Nat → List Event → Nat
  | _, p, [] => p
  | s, p, ev :: rest => feeLedger api (stepKeep api s ev) (feeDelta api s ev p) rest

/-! ### Map and arithmetic helper lemmas -/

/-- Loading the key just saved yields the saved value. -/
theorem mapLoad_mapSave_same (m : List (String × Nat)) (k : String) (v : Nat) :
    mapLoad (mapSave m k v) k = some v := by
  induction m with
  | nil => simp [mapSave, mapLoad]
  | cons kv rest ih =>
    obtain ⟨k1, w⟩ := kv
    by_cases hk : k1 = k
    · subst hk; simp [mapSave, mapLoad]
    · simp [mapSave, mapLoad, hk, ih]

/-- Saving one key does not change the value loaded at another. -/
theorem mapLoad_mapSave_other (m : List (String × Nat)) (k key : String) (v : Nat)
    (h : k ≠ key) : mapLoad (mapSave m k v) key = mapLoad m key := by
  induction m with
  | nil => simp [mapSave, mapLoad, h]
  | cons kv rest ih =>
    obtain ⟨k1, w⟩ := kv
    by_cases hk : k1 = k
    · subst hk; simp [mapSave, mapLoad, h]
    · simp [mapSave, mapLoad, hk, ih]

/-- The 5% fee never exceeds the deposited amount. -/
theorem fee_le_amount (a : Nat) : a * 50 / 1000 ≤ a := by omega

/-! ### Inversion and computation lemmas for the operations -/

/-- `hostExecute` succeeds exactly when the raw execution does. -/
theorem hostExecute_ok_iff (api : Api) (s : DepsState) (sender : String)
    (msg : ExecuteMsg) (s' : DepsState) (r : Response) :
    hostExecute api s sender msg = Except.ok (s', r) ↔
      executeRaw api s sender msg = (Except.ok r, s') := by
  unfold hostExecute
  cases hx : executeRaw api s sender msg with
  | mk res st =>
    cases res with
    | ok r0 => simp [Prod.ext_iff]; tauto
    | error e => simp

/-- Full inversion of a successful deposit: the config and fee pool were
present, the sender was the token, no arithmetic check failed, both addresses
validated, no message is emitted, and the resulting state carries the fee and
the two share credits (the second write lands after the first). -/
theorem deposit_ok_inv (api : Api) (s : DepsState) (sender : String) (a : Nat)
    (m : DepositMsg) (r : Response) (s' : DepsState)
    (h : deposit api s sender a (some (Cw20HookMsg.Deposit m)) = (Except.ok r, s')) :
    ∃ ci pool va1 va2,
      s.contractInfo = some ci ∧ sender = ci.token ∧ s.feeCollected = some pool ∧
      a * 50 < U128_LIMIT ∧ pool + a * 50 / 1000 < U128_LIMIT ∧
      api m.addr1 = some va1 ∧ api m.addr2 = some va2 ∧
      r = [] ∧
      s' = { s with
        feeCollected := some (pool + a * 50 / 1000),
        withdrawable :=
          mapSave (mapSave s.withdrawable va1
              ((mapLoad s.withdrawable va1).getD 0 + (a - a * 50 / 1000) / 2))
            va2
            ((mapLoad s.withdrawable va2).getD 0 +
              ((a - a * 50 / 1000) - (a - a * 50 / 1000) / 2)) } := by
  unfold deposit checkedU128 at h
  cases hci : s.contractInfo with
  | none => rw [hci] at h; simp at h
  | some ci =>
    rw [hci] at h
    dsimp only at h
    by_cases htok : sender = ci.token
    · rw [if_neg (fun hne => hne htok)] at h
      by_cases hov1 : a * 50 < U128_LIMIT
      · rw [if_pos hov1] at h
        dsimp only at h
        cases hfc : s.feeCollected with
        | none => rw [hfc] at h; simp at h
        | some pool =>
          rw [hfc] at h
          dsimp only at h
          by_cases hov2 : pool + a * 50 / 1000 < U128_LIMIT
          · rw [if_pos hov2] at h
            dsimp only at h
            rw [if_neg (Nat.not_lt.mpr (fee_le_amount a))] at h
            cases hv1 : api m.addr1 with
            | none => rw [hv1] at h; simp at h
            | some va1 =>
              rw [hv1] at h
              dsimp only at h
              cases hv2 : api m.addr2 with
              | none => rw [hv2] at h; simp at h
              | some va2 =>
                rw [hv2] at h
                dsimp only at h
                by_cases hov3 :
                    (mapLoad s.withdrawable va1).getD 0 + (a - a * 50 / 1000) / 2 < U128_LIMIT
                · rw [if_pos hov3] at h
                  dsimp only at h
                  by_cases hov4 :
                      (mapLoad s.withdrawable va2).getD 0 +
                        ((a - a * 50 / 1000) - (a - a * 50 / 1000) / 2) < U128_LIMIT
                  · rw [if_pos hov4] at h
                    dsimp only at h
                    obtain ⟨hr, hs⟩ := Prod.mk.injEq .. ▸ h
                    refine ⟨ci, pool, va1, va2, rfl, htok, rfl, hov1, hov2, rfl, rfl, ?_, ?_⟩
                    · exact (Except.ok.injEq .. ▸ hr.symm) ▸ rfl
                    · exact hs.symm
                  · rw [if_neg hov4] at h; simp at h
                · rw [if_neg hov3] at h; simp at h
          · rw [if_neg hov2] at h; simp at h
      · rw [if_neg hov1] at h; simp at h
    · rw [if_pos (fun heq => htok heq)] at h; simp at h

/-- `_withdraw` never touches the fee pool, in any branch. -/
theorem withdrawRaw_feeCollected (api : Api) (s : DepsState) (sender : String) (a : Nat) :
    ((withdrawRaw api s sender a).2).feeCollected = s.feeCollected := by
  unfold withdrawRaw
  repeat' first | split | dsimp only

/-- Forward computation: `_withdraw` of a zero amount is rejected. -/
theorem withdrawRaw_zero (api : Api) (s : DepsState) (sender : String) (ci : ContractInfo)
    (hci : s.contractInfo = some ci) :
    withdrawRaw api s sender 0 =
      (Except.error (ContractError.std (StdError.genericErr "Invalid zero amount")), s) := by
  unfold withdrawRaw
  rw [hci]
  dsimp only
  rw [if_pos rfl]

/-- Forward computation: `_withdraw` of more than the balance is rejected
without touching the state. -/
theorem withdrawRaw_insufficient (api : Api) (s : DepsState) (sender : String) (a : Nat)
    (ci : ContractInfo) (hci : s.contractInfo = some ci)
    (hlt : (mapLoad s.withdrawable sender).getD 0 < a) :
    withdrawRaw api s sender a =
      (Except.error (ContractError.std (StdError.genericErr "Insufficient amount")), s) := by
  unfold withdrawRaw
  rw [hci]
  dsimp only
  rw [if_neg (by omega), if_pos hlt]

/-- Forward computation: `_withdraw` of a positive amount within the balance
debits the balance and emits the one transfer instruction. -/
theorem withdrawRaw_success (api : Api) (s : DepsState) (sender : String) (a : Nat)
    (ci : ContractInfo) (recipient : String) (hci : s.contractInfo = some ci)
    (ha : a ≠ 0) (hle : a ≤ (mapLoad s.withdrawable sender).getD 0)
    (hv : api sender = some recipient) :
    withdrawRaw api s sender a =
      (Except.ok [⟨ci.token, recipient, a⟩],
       { s with withdrawable :=
          mapSave s.withdrawable sender ((mapLoad s.withdrawable sender).getD 0 - a) }) := by
  unfold withdrawRaw
  rw [hci]
  dsimp only
  rw [if_neg ha, if_neg (Nat.not_lt.mpr hle), hv]

/-- Forward computation: `withdraw_fee` by anyone but the owner is rejected
without touching the state. -/
theorem withdrawFeeRaw_not_owner (s : DepsState) (sender : String) (ci : ContractInfo)
    (hci : s.contractInfo = some ci) (hne : ci.owner ≠ sender) :
    withdrawFeeRaw s sender = (Except.error ContractError.unauthorized, s) := by
  unfold withdrawFeeRaw
  rw [hci]
  dsimp only
  rw [if_pos hne]

/-- Forward computation: `withdraw_fee` by the owner resets the pool to zero
and emits one transfer of the whole prior pool (also when it is zero). -/
theorem withdrawFeeRaw_owner (s : DepsState) (sender : String) (ci : ContractInfo) (f : Nat)
    (hci : s.contractInfo = some ci) (hown : ci.owner = sender) (hf : s.feeCollected = some f) :
    withdrawFeeRaw s sender =
      (Except.ok [⟨ci.token, sender, f⟩], { s with feeCollected := some 0 }) := by
  unfold withdrawFeeRaw
  rw [hci]
  dsimp only
  rw [if_neg (fun hne => hne hown), hf]

/-- Inversion of a successful `withdraw_fee`. -/
theorem withdrawFeeRaw_ok_inv (s : DepsState) (sender : String) (r : Response) (s' : DepsState)
    (h : withdrawFeeRaw s sender = (Except.ok r, s')) :
    ∃ ci f, s.contractInfo = some ci ∧ ci.owner = sender ∧ s.feeCollected = some f ∧
      r = [⟨ci.token, sender, f⟩] ∧ s' = { s with feeCollected := some 0 } := by
  unfold withdrawFeeRaw at h
  cases hci : s.contractInfo with
  | none => rw [hci] at h; simp at h
  | some ci =>
    rw [hci] at h
    dsimp only at h
    by_cases hown : ci.owner = sender
    · rw [if_neg (fun hne => hne hown)] at h
      cases hf : s.feeCollected with
      | none => rw [hf] at h; simp at h
      | some f =>
        rw [hf] at h
        dsimp only at h
        obtain ⟨hr, hs⟩ := Prod.mk.injEq .. ▸ h
        refine ⟨ci, f, rfl, hown, rfl, ?_, hs.symm⟩
        exact (Except.ok.injEq .. ▸ hr.symm) ▸ rfl
    · rw [if_pos hown] at h; simp at h

/-- Forward computation: a deposit whose `addr1` fails address validation
aborts with a validation error, but only after the raw execution has already
written the increased fee pool (line 158 precedes line 165); the host's
rollback is what discards that write. -/
theorem deposit_addr1_invalid (api : Api) (s : DepsState) (sender : String) (a : Nat)
    (m : DepositMsg) (ci : ContractInfo) (pool : Nat)
    (hci : s.contractInfo = some ci) (htok : sender = ci.token)
    (hfc : s.feeCollected = some pool)
    (hov1 : a * 50 < U128_LIMIT) (hov2 : pool + a * 50 / 1000 < U128_LIMIT)
    (hbad : api m.addr1 = none) :
    deposit api s sender a (some (Cw20HookMsg.Deposit m)) =
      (Except.error (ContractError.std (StdError.genericErr "Invalid address")),
       { s with feeCollected := some (pool + a * 50 / 1000) }) := by
  unfold deposit checkedU128
  rw [hci]
  dsimp only
  rw [if_neg (fun hne => hne htok), if_pos hov1]
  dsimp only
  rw [hfc]
  dsimp only
  rw [if_pos hov2]
  dsimp only
  rw [if_neg (Nat.not_lt.mpr (fee_le_amount a)), hbad]

/-- How one transaction changes the fee pool: exactly the spec-side ledger
delta — an accepted deposit adds `floor(a * 50 / 1000)`, an accepted fee
withdrawal resets to zero, everything else (including all failures) leaves it
unchanged. -/
theorem stepKeep_feeCollected (api : Api) (s : DepsState) (ev : Event) (p : Nat)
    (hp : s.feeCollected = some p) :
    (stepKeep api s ev).feeCollected = some (feeDelta api s ev p) := by
  obtain ⟨sender, msg⟩ := ev
  unfold stepKeep hostPost feeDelta
  dsimp only
  cases hx : hostExecute api s sender msg with
  | error e => cases msg <;> simpa using hp
  | ok pr =>
    obtain ⟨s', r⟩ := pr
    have hr := (hostExecute_ok_iff api s sender msg s' r).mp hx
    cases msg with
    | Withdraw a =>
      have h2 := withdrawRaw_feeCollected api s sender a
      simp only [executeRaw] at hr
      rw [hr] at h2
      simpa [hp] using h2
    | WithdrawAll =>
      have h2 := withdrawRaw_feeCollected api s sender ((mapLoad s.withdrawable sender).getD 0)
      simp only [executeRaw, withdrawAllRaw] at hr
      rw [hr] at h2
      simpa [hp] using h2
    | WithdrawFee =>
      simp only [executeRaw] at hr
      obtain ⟨ci, f, _, _, _, _, hs⟩ := withdrawFeeRaw_ok_inv s sender r s' hr
      simp [hs]
    | Receive cs a hook =>
      cases hook with
      | none =>
        simp only [executeRaw, deposit] at hr
        cases hci : s.contractInfo <;> rw [hci] at hr <;> simp at hr
      | some hk =>
        obtain ⟨m⟩ := hk
        simp only [executeRaw] at hr
        obtain ⟨ci, pool, va1, va2, _, _, hfc, _, _, _, _, _, hs⟩ :=
          deposit_ok_inv api s sender a m r s' hr
        rw [hp] at hfc
        obtain rfl : pool = p := (Option.some_inj.mp hfc).symm
        simp [hs]

/-- Over any sequence of transactions, the fee pool tracks the spec-side fee
ledger: the sum of `floor(A * 50 / 1000)` over the deposits accepted since the
most recent accepted fee withdrawal. -/
theorem runEvents_feeLedger (api : Api) (evs : List Event) :
    ∀ (s : DepsState) (p : Nat), s.feeCollected = some p →
      (runEvents api s evs).feeCollected = some (feeLedger api s p evs) := by
  induction evs with
  | nil => intro s p hp; simpa [runEvents, feeLedger] using hp
  | cons ev rest ih =>
    intro s p hp
    have hstep := stepKeep_feeCollected api s ev p hp
    simpa [runEvents, feeLedger] using ih (stepKeep api s ev) (feeDelta api s ev p) hstep

/-! ### Concrete fixtures for witnesses -/

/-- A concrete validator: rejects the empty string, accepts any other string
unchanged. -/
def mockApi : Api := fun a => if a = "" then none else some a

/-- A freshly instantiated state: token `"asset0001"`, owner `"addr0000"`
(the configuration used throughout `src/test/test.rs`). -/
def sampleState : DepsState :=
  { contractInfo := some ⟨"asset0001", "addr0000"⟩
    withdrawable := []
    feeCollected := some 0 }

/-- The state after the test suite's deposit of 1000 for
(`"addr0002"`, `"addr0003"`): fee pool 50, two credits of 475. -/
def sampleState2 : DepsState :=
  { contractInfo := some ⟨"asset0001", "addr0000"⟩
    withdrawable := [("addr0002", 475), ("addr0003", 475)]
    feeCollected := some 50 }

/-! ### The claims -/

/-- C1: for every deposit of amount `A` accepted by the deposit operation,
the fee added to the fee pool plus the two shares credited to the
withdrawable balances of `addr1` and `addr2` together equal `A` exactly
(`fee + share1 + share2 = A`). -/
theorem claim_C1_conservation (api : Api) (s : DepsState) (sender cs : String) (a : Nat)
    (m : DepositMsg) (s' : DepsState) (r : Response)
    (h : hostExecute api s sender (ExecuteMsg.Receive cs a (some (Cw20HookMsg.Deposit m))) =
      Except.ok (s', r)) :
    ∃ pool va1 va2,
      s.feeCollected = some pool ∧ api m.addr1 = some va1 ∧ api m.addr2 = some va2 ∧
      a * 50 / 1000 + (a - a * 50 / 1000) / 2 +
        ((a - a * 50 / 1000) - (a - a * 50 / 1000) / 2) = a ∧
      s'.feeCollected = some (pool + a * 50 / 1000) ∧
      s'.withdrawable =
        mapSave (mapSave s.withdrawable va1
            ((mapLoad s.withdrawable va1).getD 0 + (a - a * 50 / 1000) / 2))
          va2
          ((mapLoad s.withdrawable va2).getD 0 +
            ((a - a * 50 / 1000) - (a - a * 50 / 1000) / 2)) := by
  have hr := (hostExecute_ok_iff api s sender _ s' r).mp h
  simp only [executeRaw] at hr
  obtain ⟨ci, pool, va1, va2, hci, htok, hfc, hov1, hov2, hv1, hv2, hrr, hs⟩ :=
    deposit_ok_inv api s sender a m r s' hr
  refine ⟨pool, va1, va2, hfc, hv1, hv2, ?_, ?_, ?_⟩
  · have hfee := fee_le_amount a
    omega
  · rw [hs]
  · rw [hs]

/-- C1 witness: the test suite's deposit of 1000 (fee 50, shares 475/475). -/
theorem claim_C1_conservation_witness :
    ∃ pool va1 va2,
      sampleState.feeCollected = some pool ∧
      mockApi "addr0002" = some va1 ∧ mockApi "addr0003" = some va2 ∧
      1000 * 50 / 1000 + (1000 - 1000 * 50 / 1000) / 2 +
        ((1000 - 1000 * 50 / 1000) - (1000 - 1000 * 50 / 1000) / 2) = 1000 ∧
      sampleState2.feeCollected = some (pool + 1000 * 50 / 1000) ∧
      sampleState2.withdrawable =
        mapSave (mapSave sampleState.withdrawable va1
            ((mapLoad sampleState.withdrawable va1).getD 0 + (1000 - 1000 * 50 / 1000) / 2))
          va2
          ((mapLoad sampleState.withdrawable va2).getD 0 +
            ((1000 - 1000 * 50 / 1000) - (1000 - 1000 * 50 / 1000) / 2)) :=
  claim_C1_conservation mockApi sampleState "asset0001" "addr0001" 1000
    ⟨"addr0002", "addr0003"⟩ sampleState2 [] (by rfl)

/-- C5: for every accepted deposit of amount `A`, the fee added to the pool
equals `floor(A * 50 / 1000)` — multiply first, divide second with truncating
integer division; a pre-divided rate would give `A * (50 / 1000) = 0`. -/
theorem claim_C5_fee_formula (api : Api) (s : DepsState) (sender cs : String) (a : Nat)
    (m : DepositMsg) (s' : DepsState) (r : Response) (pool : Nat)
    (h : hostExecute api s sender (ExecuteMsg.Receive cs a (some (Cw20HookMsg.Deposit m))) =
      Except.ok (s', r))
    (hfc : s.feeCollected = some pool) :
    s'.feeCollected = some (pool + a * 50 / 1000) ∧ a * (50 / 1000) = 0 := by
  have hr := (hostExecute_ok_iff api s sender _ s' r).mp h
  simp only [executeRaw] at hr
  obtain ⟨ci, pool2, va1, va2, hci, htok, hfc2, hov1, hov2, hv1, hv2, hrr, hs⟩ :=
    deposit_ok_inv api s sender a m r s' hr
  rw [hfc] at hfc2
  obtain rfl : pool2 = pool := (Option.some_inj.mp hfc2).symm
  exact ⟨by rw [hs], by simp⟩

/-- C5 witness: the deposit of 100 from the test suite (fee 5, not 0). -/
theorem claim_C5_fee_formula_witness :
    ({ contractInfo := some ⟨"asset0001", "addr0000"⟩
       withdrawable := [("addr0002", 47), ("addr0003", 48)]
       feeCollected := some 5 } : DepsState).feeCollected = some (0 + 100 * 50 / 1000) ∧
    100 * (50 / 1000) = 0 :=
  claim_C5_fee_formula mockApi sampleState "asset0001" "addr0001" 100
    ⟨"addr0002", "addr0003"⟩
    { contractInfo := some ⟨"asset0001", "addr0000"⟩
      withdrawable := [("addr0002", 47), ("addr0003", 48)]
      feeCollected := some 5 } [] 0 (by rfl) rfl

/-- C6: for every accepted deposit of amount `A` crediting two distinct
validated addresses, with `fee = floor(A*50/1000)` and
`sendAmount = A - fee`: `share1 = floor(sendAmount / 2)` is credited to
`addr1`, `share1 + share2 = A - fee`, and `share2 ≥ share1`. -/
theorem claim_C6_share_split (api : Api) (s : DepsState) (sender cs : String) (a : Nat)
    (m : DepositMsg) (s' : DepsState) (r : Response) (va1 va2 : String)
    (h : hostExecute api s sender (ExecuteMsg.Receive cs a (some (Cw20HookMsg.Deposit m))) =
      Except.ok (s', r))
    (hv1 : api m.addr1 = some va1) (hv2 : api m.addr2 = some va2) (hne : va1 ≠ va2) :
    (a - a * 50 / 1000) / 2 + ((a - a * 50 / 1000) - (a - a * 50 / 1000) / 2) =
      a - a * 50 / 1000 ∧
    (a - a * 50 / 1000) / 2 ≤ (a - a * 50 / 1000) - (a - a * 50 / 1000) / 2 ∧
    (mapLoad s'.withdrawable va1).getD 0 =
      (mapLoad s.withdrawable va1).getD 0 + (a - a * 50 / 1000) / 2 ∧
    (mapLoad s'.withdrawable va2).getD 0 =
      (mapLoad s.withdrawable va2).getD 0 +
        ((a - a * 50 / 1000) - (a - a * 50 / 1000) / 2) := by
  have hr := (hostExecute_ok_iff api s sender _ s' r).mp h
  simp only [executeRaw] at hr
  obtain ⟨ci, pool, va1', va2', hci, htok, hfc, hov1, hov2, hv1', hv2', hrr, hs⟩ :=
    deposit_ok_inv api s sender a m r s' hr
  rw [hv1] at hv1'
  have hva1 : va1' = va1 := (Option.some_inj.mp hv1').symm
  rw [hv2] at hv2'
  have hva2 : va2' = va2 := (Option.some_inj.mp hv2').symm
  rw [hva1, hva2] at hs
  refine ⟨by omega, by omega, ?_, ?_⟩
  · rw [hs]
    dsimp only
    rw [mapLoad_mapSave_other _ va2 va1 _ (fun he => hne he.symm), mapLoad_mapSave_same]
    rfl
  · rw [hs]
    dsimp only
    rw [mapLoad_mapSave_same]
    rfl

/-- C6 witness: the deposit of 100 (fee 5, remainder 95, shares 47 and 48). -/
theorem claim_C6_share_split_witness :
    (100 - 100 * 50 / 1000) / 2 + ((100 - 100 * 50 / 1000) - (100 - 100 * 50 / 1000) / 2) =
      100 - 100 * 50 / 1000 ∧
    (100 - 100 * 50 / 1000) / 2 ≤ (100 - 100 * 50 / 1000) - (100 - 100 * 50 / 1000) / 2 ∧
    (mapLoad ({ contractInfo := some ⟨"asset0001", "addr0000"⟩
                withdrawable := [("addr0002", 47), ("addr0003", 48)]
                feeCollected := some 5 } : DepsState).withdrawable "addr0002").getD 0 =
      (mapLoad sampleState.withdrawable "addr0002").getD 0 + (100 - 100 * 50 / 1000) / 2 ∧
    (mapLoad ({ contractInfo := some ⟨"asset0001", "addr0000"⟩
                withdrawable := [("addr0002", 47), ("addr0003", 48)]
                feeCollected := some 5 } : DepsState).withdrawable "addr0003").getD 0 =
      (mapLoad sampleState.withdrawable "addr0003").getD 0 +
        ((100 - 100 * 50 / 1000) - (100 - 100 * 50 / 1000) / 2) :=
  claim_C6_share_split mockApi sampleState "asset0001" "addr0001" 100
    ⟨"addr0002", "addr0003"⟩
    { contractInfo := some ⟨"asset0001", "addr0000"⟩
      withdrawable := [("addr0002", 47), ("addr0003", 48)]
      feeCollected := some 5 } [] "addr0002" "addr0003" (by rfl) rfl rfl (by decide)

/-- C10: when both recipient addresses validate to the same address, the
second balance write overwrites the first (both prior balances are read
before either write), so only `share2 = sendAmount - floor(sendAmount/2)` is
credited, on top of the prior balance. -/
theorem claim_C10_alias_overwrite (api : Api) (s : DepsState) (sender cs : String) (a : Nat)
    (m : DepositMsg) (s' : DepsState) (r : Response) (v : String)
    (h : hostExecute api s sender (ExecuteMsg.Receive cs a (some (Cw20HookMsg.Deposit m))) =
      Except.ok (s', r))
    (hv1 : api m.addr1 = some v) (hv2 : api m.addr2 = some v) :
    (mapLoad s'.withdrawable v).getD 0 =
      (mapLoad s.withdrawable v).getD 0 +
        ((a - a * 50 / 1000) - (a - a * 50 / 1000) / 2) := by
  have hr := (hostExecute_ok_iff api s sender _ s' r).mp h
  simp only [executeRaw] at hr
  obtain ⟨ci, pool, va1', va2', hci, htok, hfc, hov1, hov2, hv1', hv2', hrr, hs⟩ :=
    deposit_ok_inv api s sender a m r s' hr
  rw [hv1] at hv1'
  have hva1 : va1' = v := (Option.some_inj.mp hv1').symm
  rw [hv2] at hv2'
  have hva2 : va2' = v := (Option.some_inj.mp hv2').symm
  rw [hva1, hva2] at hs
  rw [hs]
  dsimp only
  rw [mapLoad_mapSave_same]
  rfl

/-- C10 witness: a deposit of 100 with `addr1 = addr2 = "addr0002"` leaves
the shared address with 48 (only share2), not 95. -/
theorem claim_C10_alias_overwrite_witness :
    (mapLoad ({ contractInfo := some ⟨"asset0001", "addr0000"⟩
                withdrawable := [("addr0002", 48)]
                feeCollected := some 5 } : DepsState).withdrawable "addr0002").getD 0 =
      (mapLoad sampleState.withdrawable "addr0002").getD 0 +
        ((100 - 100 * 50 / 1000) - (100 - 100 * 50 / 1000) / 2) :=
  claim_C10_alias_overwrite mockApi sampleState "asset0001" "addr0001" 100
    ⟨"addr0002", "addr0002"⟩
    { contractInfo := some ⟨"asset0001", "addr0000"⟩
      withdrawable := [("addr0002", 48)]
      feeCollected := some 5 } [] "addr0002" (by rfl) rfl rfl

/-- C2: a failed operation (any of the four) leaves the persistent state
untouched; in particular a deposit whose recipient address fails validation
errors out with the fee pool unchanged, even though the raw execution has
already written the increased pool (line 158 precedes line 165) — the host's
atomic rollback discards that write. -/
theorem claim_C2_no_effect_on_failure :
    (∀ (api : Api) (s : DepsState) (sender : String) (msg : ExecuteMsg) (e : ContractError),
       hostExecute api s sender msg = Except.error e → hostPost api s sender msg = s) ∧
    (∀ (api : Api) (s : DepsState) (ci : ContractInfo) (cs : String) (a : Nat)
       (m : DepositMsg) (pool : Nat),
       s.contractInfo = some ci → s.feeCollected = some pool →
       a * 50 < U128_LIMIT → pool + a * 50 / 1000 < U128_LIMIT →
       api m.addr1 = none →
       hostExecute api s ci.token (ExecuteMsg.Receive cs a (some (Cw20HookMsg.Deposit m))) =
         Except.error (ContractError.std (StdError.genericErr "Invalid address")) ∧
       hostPost api s ci.token (ExecuteMsg.Receive cs a (some (Cw20HookMsg.Deposit m))) = s ∧
       (executeRaw api s ci.token
           (ExecuteMsg.Receive cs a (some (Cw20HookMsg.Deposit m)))).2.feeCollected =
         some (pool + a * 50 / 1000)) := by
  constructor
  · intro api s sender msg e h
    unfold hostPost
    rw [h]
  · intro api s ci cs a m pool hci hfc hov1 hov2 hbad
    have hd := deposit_addr1_invalid api s ci.token a m ci pool hci rfl hfc hov1 hov2 hbad
    have he : executeRaw api s ci.token
        (ExecuteMsg.Receive cs a (some (Cw20HookMsg.Deposit m))) =
        (Except.error (ContractError.std (StdError.genericErr "Invalid address")),
         { s with feeCollected := some (pool + a * 50 / 1000) }) := by
      simp only [executeRaw]
      exact hd
    refine ⟨?_, ?_, ?_⟩
    · unfold hostExecute
      rw [he]
    · unfold hostPost hostExecute
      rw [he]
    · rw [he]

/-- C2 witness: a deposit naming the invalid recipient `""` fails, the
persistent state (fee pool included) is unchanged, and the raw pre-rollback
state did carry the increased pool. -/
theorem claim_C2_no_effect_on_failure_witness :
    hostExecute mockApi sampleState "asset0001"
        (ExecuteMsg.Receive "addr0001" 1000 (some (Cw20HookMsg.Deposit ⟨"", "addr0003"⟩))) =
      Except.error (ContractError.std (StdError.genericErr "Invalid address")) ∧
    hostPost mockApi sampleState "asset0001"
        (ExecuteMsg.Receive "addr0001" 1000 (some (Cw20HookMsg.Deposit ⟨"", "addr0003"⟩))) =
      sampleState ∧
    (executeRaw mockApi sampleState "asset0001"
        (ExecuteMsg.Receive "addr0001" 1000
          (some (Cw20HookMsg.Deposit ⟨"", "addr0003"⟩)))).2.feeCollected =
      some (0 + 1000 * 50 / 1000) :=
  claim_C2_no_effect_on_failure.2 mockApi sampleState ⟨"asset0001", "addr0000"⟩ "addr0001"
    1000 ⟨"", "addr0003"⟩ 0 rfl rfl (by decide) (by decide) rfl

/-- C3 counterexample: a deposit notification whose sender is not the
configured token (with a well-formed payload) fails with the generic error
"Invalid token", which is not the authorization failure
`ContractError.unauthorized` — the claim that both rejection arms signal an
authorization failure is false on this input. -/
theorem claim_C3_auth_cex :
    hostExecute mockApi sampleState "addr0009"
        (ExecuteMsg.Receive "addr0001" 100
          (some (Cw20HookMsg.Deposit ⟨"addr0002", "addr0003"⟩))) =
      Except.error (ContractError.std (StdError.genericErr "Invalid token")) ∧
    ContractError.std (StdError.genericErr "Invalid token") ≠ ContractError.unauthorized := by
  refine ⟨by rfl, by decide⟩

/-- C3 amended: with the configuration present, a payload that fails to
decode as a deposit instruction is rejected with the authorization failure
`Unauthorized`; a notifying sender that is not the configured token (with a
well-formed payload) is rejected too, but with the generic error
"Invalid token" rather than the authorization failure. -/
theorem claim_C3_auth_amended (api : Api) (s : DepsState) (ci : ContractInfo)
    (sender cs : String) (a : Nat) (hci : s.contractInfo = some ci) :
    hostExecute api s sender (ExecuteMsg.Receive cs a none) =
      Except.error ContractError.unauthorized ∧
    (∀ m : DepositMsg, sender ≠ ci.token →
       hostExecute api s sender (ExecuteMsg.Receive cs a (some (Cw20HookMsg.Deposit m))) =
         Except.error (ContractError.std (StdError.genericErr "Invalid token"))) := by
  constructor
  · unfold hostExecute
    simp only [executeRaw]
    unfold deposit
    rw [hci]
  · intro m hne
    unfold hostExecute
    simp only [executeRaw]
    unfold deposit
    rw [hci]
    dsimp only
    rw [if_pos hne]

/-- C3 amended witness: an undecodable payload yields `Unauthorized`; a
foreign sender with a well-formed payload yields the generic
"Invalid token" error. -/
theorem claim_C3_auth_amended_witness :
    hostExecute mockApi sampleState "addr0009" (ExecuteMsg.Receive "addr0001" 100 none) =
      Except.error ContractError.unauthorized ∧
    hostExecute mockApi sampleState "addr0009"
        (ExecuteMsg.Receive "addr0001" 100
          (some (Cw20HookMsg.Deposit ⟨"addr0002", "addr0003"⟩))) =
      Except.error (ContractError.std (StdError.genericErr "Invalid token")) :=
  ⟨(claim_C3_auth_amended mockApi sampleState ⟨"asset0001", "addr0000"⟩ "addr0009"
      "addr0001" 100 rfl).1,
   (claim_C3_auth_amended mockApi sampleState ⟨"asset0001", "addr0000"⟩ "addr0009"
      "addr0001" 100 rfl).2 ⟨"addr0002", "addr0003"⟩ (by decide)⟩

/-- C4: with the caller's address validating to itself, a withdraw request
above the balance is rejected as insufficient; a positive request within the
balance succeeds, leaves the balance at `b - a` (zero when `a = b`), and
emits exactly one transfer instruction of `a` to the caller on the
configured token. -/
theorem claim_C4_withdraw (api : Api) (s : DepsState) (sender : String) (ci : ContractInfo)
    (a : Nat) (hci : s.contractInfo = some ci) (hv : api sender = some sender) :
    ((mapLoad s.withdrawable sender).getD 0 < a →
       hostExecute api s sender (ExecuteMsg.Withdraw a) =
         Except.error (ContractError.std (StdError.genericErr "Insufficient amount"))) ∧
    (0 < a → a ≤ (mapLoad s.withdrawable sender).getD 0 →
       hostExecute api s sender (ExecuteMsg.Withdraw a) =
         Except.ok
           ({ s with withdrawable :=
               mapSave s.withdrawable sender ((mapLoad s.withdrawable sender).getD 0 - a) },
            [⟨ci.token, sender, a⟩]) ∧
       (mapLoad (hostPost api s sender (ExecuteMsg.Withdraw a)).withdrawable sender).getD 0 =
         (mapLoad s.withdrawable sender).getD 0 - a) := by
  constructor
  · intro hlt
    unfold hostExecute
    simp only [executeRaw]
    rw [withdrawRaw_insufficient api s sender a ci hci hlt]
  · intro hpos hle
    have hw := withdrawRaw_success api s sender a ci sender hci (by omega) hle hv
    constructor
    · unfold hostExecute
      simp only [executeRaw]
      rw [hw]
    · unfold hostPost hostExecute
      simp only [executeRaw]
      rw [hw]
      dsimp only
      rw [mapLoad_mapSave_same]
      rfl

/-- C4 witness: with balances from the 1000-deposit (475 each), withdraw of
1000 by `"addr0002"` is rejected as insufficient, and withdraw of 300
succeeds, leaves 175, and emits one transfer of 300. -/
theorem claim_C4_withdraw_witness :
    (hostExecute mockApi sampleState2 "addr0002" (ExecuteMsg.Withdraw 1000) =
       Except.error (ContractError.std (StdError.genericErr "Insufficient amount"))) ∧
    (hostExecute mockApi sampleState2 "addr0002" (ExecuteMsg.Withdraw 300) =
       Except.ok
         ({ sampleState2 with
             withdrawable := mapSave sampleState2.withdrawable "addr0002"
               ((mapLoad sampleState2.withdrawable "addr0002").getD 0 - 300) },
          [⟨"asset0001", "addr0002", 300⟩]) ∧
     (mapLoad (hostPost mockApi sampleState2 "addr0002"
         (ExecuteMsg.Withdraw 300)).withdrawable "addr0002").getD 0 =
       (mapLoad sampleState2.withdrawable "addr0002").getD 0 - 300) :=
  ⟨(claim_C4_withdraw mockApi sampleState2 "addr0002" ⟨"asset0001", "addr0000"⟩ 1000
      rfl (by rfl)).1 (by decide),
   (claim_C4_withdraw mockApi sampleState2 "addr0002" ⟨"asset0001", "addr0000"⟩ 300
      rfl (by rfl)).2 (by decide) (by decide)⟩

/-- C7: a zero-amount withdraw is always rejected, regardless of the caller's
balance; `withdrawAll` by a caller with zero (or absent) balance requests a
zero amount and is therefore rejected as "Invalid zero amount" rather than
succeeding as a no-op. -/
theorem claim_C7_zero_rejected (api : Api) (s : DepsState) (sender : String)
    (ci : ContractInfo) (hci : s.contractInfo = some ci) :
    hostExecute api s sender (ExecuteMsg.Withdraw 0) =
      Except.error (ContractError.std (StdError.genericErr "Invalid zero amount")) ∧
    ((mapLoad s.withdrawable sender).getD 0 = 0 →
       hostExecute api s sender ExecuteMsg.WithdrawAll =
         Except.error (ContractError.std (StdError.genericErr "Invalid zero amount"))) := by
  constructor
  · unfold hostExecute
    simp only [executeRaw]
    rw [withdrawRaw_zero api s sender ci hci]
  · intro hz
    unfold hostExecute
    simp only [executeRaw, withdrawAllRaw]
    rw [hz, withdrawRaw_zero api s sender ci hci]

/-- C7 witness: `withdraw(0)` by a caller holding 475 is rejected, and
`withdrawAll` by a caller with no balance entry is rejected the same way. -/
theorem claim_C7_zero_rejected_witness :
    (hostExecute mockApi sampleState2 "addr0002" (ExecuteMsg.Withdraw 0) =
       Except.error (ContractError.std (StdError.genericErr "Invalid zero amount"))) ∧
    (hostExecute mockApi sampleState2 "addr0009" ExecuteMsg.WithdrawAll =
       Except.error (ContractError.std (StdError.genericErr "Invalid zero amount"))) :=
  ⟨(claim_C7_zero_rejected mockApi sampleState2 "addr0002" ⟨"asset0001", "addr0000"⟩ rfl).1,
   (claim_C7_zero_rejected mockApi sampleState2 "addr0009" ⟨"asset0001", "addr0000"⟩ rfl).2
     (by rfl)⟩

/-- C8: `withdrawFee` by a non-owner fails with the authorization error and
leaves the state (fee pool included) unchanged; by the owner it always
succeeds, resets the pool to zero, and emits one transfer of the entire
prior pool to the owner — also when that pool is zero. -/
theorem claim_C8_fee_withdrawal (api : Api) (s : DepsState) (sender : String)
    (ci : ContractInfo) (hci : s.contractInfo = some ci) :
    (sender ≠ ci.owner →
       hostExecute api s sender ExecuteMsg.WithdrawFee =
         Except.error ContractError.unauthorized ∧
       hostPost api s sender ExecuteMsg.WithdrawFee = s) ∧
    (∀ f, s.feeCollected = some f → sender = ci.owner →
       hostExecute api s sender ExecuteMsg.WithdrawFee =
         Except.ok ({ s with feeCollected := some 0 }, [⟨ci.token, sender, f⟩])) := by
  constructor
  · intro hne
    have hw := withdrawFeeRaw_not_owner s sender ci hci (fun he => hne he.symm)
    constructor
    · unfold hostExecute
      simp only [executeRaw]
      rw [hw]
    · unfold hostPost hostExecute
      simp only [executeRaw]
      rw [hw]
  · intro f hf hown
    have hw := withdrawFeeRaw_owner s sender ci f hci hown.symm hf
    unfold hostExecute
    simp only [executeRaw]
    rw [hw]

/-- C8 witness: with a pool of 50, the non-owner `"addr0001"` is rejected
with the state unchanged; the owner `"addr0000"` drains the pool to zero
with one transfer of 50; and on an already-zero pool the owner still
succeeds, with a zero-amount transfer. -/
theorem claim_C8_fee_withdrawal_witness :
    (hostExecute mockApi sampleState2 "addr0001" ExecuteMsg.WithdrawFee =
       Except.error ContractError.unauthorized ∧
     hostPost mockApi sampleState2 "addr0001" ExecuteMsg.WithdrawFee = sampleState2) ∧
    (hostExecute mockApi sampleState2 "addr0000" ExecuteMsg.WithdrawFee =
       Except.ok ({ sampleState2 with feeCollected := some 0 },
         [⟨"asset0001", "addr0000", 50⟩])) ∧
    (hostExecute mockApi sampleState "addr0000" ExecuteMsg.WithdrawFee =
       Except.ok ({ sampleState with feeCollected := some 0 },
         [⟨"asset0001", "addr0000", 0⟩])) :=
  ⟨(claim_C8_fee_withdrawal mockApi sampleState2 "addr0001" ⟨"asset0001", "addr0000"⟩
      rfl).1 (by decide),
   (claim_C8_fee_withdrawal mockApi sampleState2 "addr0000" ⟨"asset0001", "addr0000"⟩
      rfl).2 50 rfl rfl,
   (claim_C8_fee_withdrawal mockApi sampleState "addr0000" ⟨"asset0001", "addr0000"⟩
      rfl).2 0 rfl rfl⟩

/-- C9: starting from instantiation (pool 0), after any sequence of
transactions the fee pool equals the spec-side ledger: the sum of
`floor(A * 50 / 1000)` over the deposits accepted since the most recent
accepted fee withdrawal (or since initialization when there is none). It is
a `Nat`, hence never negative. -/
theorem claim_C9_fee_pool_invariant (api : Api) (s s0 : DepsState) (tk ow : String)
    (r : Response) (evs : List Event)
    (h : instantiate api s tk ow = Except.ok (s0, r)) :
    (runEvents api s0 evs).feeCollected = some (feeLedger api s0 0 evs) := by
  have h0 : s0.feeCollected = some 0 := by
    unfold instantiate at h
    cases ht : api tk with
    | none => rw [ht] at h; simp at h
    | some t =>
      rw [ht] at h
      dsimp only at h
      cases ho : api ow with
      | none => rw [ho] at h; simp at h
      | some o =>
        rw [ho] at h
        dsimp only at h
        simp only [Except.ok.injEq, Prod.mk.injEq] at h
        rw [← h.1]
  exact runEvents_feeLedger api evs s0 0 h0

/-- C9 witness: instantiation followed by the test-suite scenario — a deposit
of 1000, a withdraw of 300, a fee withdrawal by the owner, then a deposit of
100: the pool tracks the ledger (50, then reset, then 5) at every point. -/
theorem claim_C9_fee_pool_invariant_witness :
    (runEvents mockApi sampleState
        [⟨"asset0001", ExecuteMsg.Receive "addr0001" 1000
            (some (Cw20HookMsg.Deposit ⟨"addr0002", "addr0003"⟩))⟩,
         ⟨"addr0002", ExecuteMsg.Withdraw 300⟩,
         ⟨"addr0000", ExecuteMsg.WithdrawFee⟩,
         ⟨"asset0001", ExecuteMsg.Receive "addr0001" 100
            (some (Cw20HookMsg.Deposit ⟨"addr0002", "addr0003"⟩))⟩]).feeCollected =
      some (feeLedger mockApi sampleState 0
        [⟨"asset0001", ExecuteMsg.Receive "addr0001" 1000
            (some (Cw20HookMsg.Deposit ⟨"addr0002", "addr0003"⟩))⟩,
         ⟨"addr0002", ExecuteMsg.Withdraw 300⟩,
         ⟨"addr0000", ExecuteMsg.WithdrawFee⟩,
         ⟨"asset0001", ExecuteMsg.Receive "addr0001" 100
            (some (Cw20HookMsg.Deposit ⟨"addr0002", "addr0003"⟩))⟩]) :=
  claim_C9_fee_pool_invariant mockApi
    { contractInfo := none, withdrawable := [], feeCollected := none }
    sampleState "asset0001" "addr0000" [] _ (by rfl)
